import Mathlib

/-!
Shallow embedding of `src/api.js` (the Session Client of the Ai-Study-Assistant
front-end): localStorage token state, the fetch-based operations, the 401
refresh-and-retry control flow, and theorems settling the frozen claims.

Modelling conventions:
* `localStorage` holds exactly the two keys the client ever touches
  (`access_token`, `refresh_token`); it is modelled as a pair of
  `Option String` (a key that was never set reads as `none`, JS `null`)
  together with an event log of every `setItem` / `removeItem` call.
* The network is a script: a list of `FetchOutcome` consumed in order, one
  per `fetch` call.  A `fetch` that throws (transport error) is
  `FetchOutcome.netError`; an exhausted script also behaves as a transport
  error.  Response bodies are already-parsed JSON restricted to the fields
  the client reads (`detail`, `access_token`, `refresh_token`) plus an
  opaque `payload` standing for the rest of the document.
* JS truthiness on strings (`token && ...`, `if (!refreshToken)`,
  `error.detail || "msg"`) is modelled explicitly: `null`/`undefined` and
  the empty string are falsy.
* `localStorage.setItem(k, v)` coerces a JS `undefined` value to the string
  "undefined"; `jsStr` reproduces that.
* The recursive retry of the protected operations
  (`if (await handleAuthError(res)) return getUserProfile();`) is embedded
  with a fuel parameter; exhausted fuel is the distinguished result
  `OpResult.fuelOut`, never produced on any script a theorem below speaks
  about.
* Browser-only effects that the claims mention are tracked in the context:
  `window.location.href` assignment and `console.error` calls.  The DOM
  file-save dance of `downloadQuizPdf` (createObjectURL, link click) has no
  observable effect on the modelled state and is not represented.
-/

namespace Api

/-- `process.env.REACT_APP_API_BASE || "http://localhost:8000"`: the default
base URL (the environment override is fixed to its default). -/
def API_BASE : String := "http://localhost:8000"

/-- The two localStorage keys owned by the client. -/
def accessKey : String := "access_token"

/-- The refresh-token localStorage key. -/
def refreshKey : String := "refresh_token"

/-- Current localStorage contents: the two token slots. -/
structure Store where
  access_token : Option String
  refresh_token : Option String
  deriving Repr, DecidableEq

/-- A storage mutation, as issued by the code. -/
inductive StorageEvent where
  | setItem (key : String) (value : String)
  | removeItem (key : String)
  deriving Repr, DecidableEq

/-- Request headers the client constructs: an optional Content-Type and an
optional Authorization value. -/
structure Headers where
  contentType : Option String
  authorization : Option String
  deriving Repr, DecidableEq

/-- Request bodies, kept symbolic (their JSON shape is fixed per call site). -/
inductive ReqBody where
  | jsonRegister (email : String) (phone : String) (fullName : String)
  | jsonSendOtp (email : String) (phone : String)
  | jsonVerifyOtp (email : String) (otp : String)
  | jsonRefresh (refreshToken : String)
  | jsonText (text : String)
  | jsonYouTube (url : String)
  | formDataFile (file : String)
  | jsonQuizText (text : String)
  | jsonDownloadQuiz (title : String) (quizData : String)
  deriving Repr, DecidableEq

/-- An outbound HTTP request descriptor. -/
structure Request where
  url : String
  method : String
  headers : Headers
  body : Option ReqBody
  deriving Repr, DecidableEq

/-- A parsed JSON response body, restricted to the fields the client reads;
`payload` stands for the rest of the document (passed through to callers). -/
structure Body where
  detail : Option String := none
  access_token : Option String := none
  refresh_token : Option String := none
  payload : String := ""
  deriving Repr, DecidableEq

/-- One network interaction as seen by a single `fetch` call. -/
inductive FetchOutcome where
  | success (status : Nat) (body : Body)
  | netError
  deriving Repr, DecidableEq

/-- The settled value of one operation. -/
inductive OpResult where
  | ok (body : Body)
  | error (msg : String)
  | netErr
  | fuelOut
  deriving Repr, DecidableEq

/-- The world an operation runs in: storage, the pending network script, and
the observation logs (requests issued, storage mutations, redirect, console). -/
structure Ctx where
  store : Store
  script : List FetchOutcome
  log : List Request
  storeLog : List StorageEvent
  href : Option String
  consoleErrors : Nat
  deriving Repr, DecidableEq

/-- A fresh context from initial storage and a network script. -/
def initCtx (st : Store) (script : List FetchOutcome) : Ctx :=
  { store := st, script := script, log := [], storeLog := [],
    href := none, consoleErrors := 0 }

/-- JS falsiness of a nullable string: `null`/`undefined` and `""` are falsy. -/
def jsFalsy : Option String → Bool
  | none => true
  | some s => s = ""

/-- `a || b` for a nullable string `a` and string default `b`. -/
def jsOr (a : Option String) (b : String) : String :=
  match a with
  | none => b
  | some s => if s = "" then b else s

/-- `String(v)` as applied by `localStorage.setItem` to a possibly-undefined
value: `undefined` is stored as the string "undefined". -/
def jsStr : Option String → String
  | none => "undefined"
  | some s => s

/-- `localStorage.getItem` restricted to the two keys the client uses. -/
def lsGetItem (key : String) (ctx : Ctx) : Option String :=
  if key = accessKey then ctx.store.access_token
  else if key = refreshKey then ctx.store.refresh_token
  else none

/-- `localStorage.setItem`, recording the event. -/
def lsSetItem (key : String) (value : String) (ctx : Ctx) : Ctx :=
  { ctx with
    store :=
      { access_token :=
          if key = accessKey then some value else ctx.store.access_token,
        refresh_token :=
          if key = refreshKey then some value else ctx.store.refresh_token },
    storeLog := ctx.storeLog ++ [StorageEvent.setItem key value] }

/-- `localStorage.removeItem`, recording the event. -/
def lsRemoveItem (key : String) (ctx : Ctx) : Ctx :=
  { ctx with
    store :=
      { access_token :=
          if key = accessKey then none else ctx.store.access_token,
        refresh_token :=
          if key = refreshKey then none else ctx.store.refresh_token },
    storeLog := ctx.storeLog ++ [StorageEvent.removeItem key] }

/-- `res.ok`: status in the 2xx range. -/
def resOk (status : Nat) : Bool := 200 ≤ status && status ≤ 299

/-- One `fetch`: logs the request and consumes the next scripted outcome; an
exhausted script behaves as a transport error. -/
def fetchStep (req : Request) (ctx : Ctx) : FetchOutcome × Ctx :=
  match ctx.script with
  | [] => (FetchOutcome.netError, { ctx with log := ctx.log ++ [req] })
  | o :: rest =>
      (o, { ctx with script := rest, log := ctx.log ++ [req] })

/-- Plain JSON headers (`Content-Type: application/json`, no bearer). -/
def jsonHeaders : Headers :=
  { contentType := some "application/json", authorization := none }

/-- `token && \x7b Authorization: Bearer ... \x7d`: the optional bearer value
produced from a stored token under JS truthiness. -/
def bearerOf (token : Option String) : Option String :=
  if jsFalsy token then none
  else some ("Bearer " ++ jsStr token)

/-- `getAuthHeaders` (api.js lines 5-11): JSON Content-Type plus the bearer
header when the stored access token is truthy. -/
def getAuthHeaders (st : Store) : Headers :=
  { contentType := some "application/json",
    authorization := bearerOf st.access_token }

/-- The request issued by `refreshAccessToken`. -/
def refreshRequest (refreshToken : String) : Request :=
  { url := API_BASE ++ "/api/auth/refresh", method := "POST",
    headers := jsonHeaders,
    body := some (ReqBody.jsonRefresh refreshToken) }

/-- `refreshAccessToken` (api.js lines 88-107): returns false at once on a
falsy stored refresh token; otherwise POSTs it, and on a 2xx response stores
the returned access token and returns true; any non-2xx response or thrown
transport error yields false (the try/catch swallows the error). -/
def refreshAccessToken (ctx : Ctx) : Bool × Ctx :=
  let refreshToken := lsGetItem refreshKey ctx
  if jsFalsy refreshToken then (false, ctx)
  else
    let (out, ctx1) := fetchStep (refreshRequest (jsStr refreshToken)) ctx
    match out with
    | FetchOutcome.netError => (false, ctx1)
    | FetchOutcome.success status body =>
        if resOk status then
          (true, lsSetItem accessKey (jsStr body.access_token) ctx1)
        else (false, ctx1)

/-- The message thrown on the terminal auth-failure path. -/
def sessionExpiredMsg : String := "Session expired. Please login again."

/-- `handleAuthError` (api.js lines 13-25): on a 401 status, attempt one
refresh; if it fails, clear both tokens, redirect to /login and throw the
session-expired error; if it succeeds, report true (caller retries).  On any
other status report false. -/
def handleAuthError (status : Nat) (ctx : Ctx) : Except String Bool × Ctx :=
  if status = 401 then
    let (refreshed, ctx1) := refreshAccessToken ctx
    if refreshed then (Except.ok true, ctx1)
    else
      let ctx2 := lsRemoveItem refreshKey (lsRemoveItem accessKey ctx1)
      (Except.error sessionExpiredMsg, { ctx2 with href := some "/login" })
  else (Except.ok false, ctx)

/-- The per-operation data of a protected call: endpoint, method, header
construction, body, and the default error message (a function of the status,
because `summarizeYouTube` interpolates it). -/
structure OpSpec where
  url : String
  method : String
  mkHeaders : Store → Headers
  body : Option ReqBody
  defaultMsg : Nat → String

/-- The request a protected operation issues against the current storage. -/
def mkRequest (s : OpSpec) (st : Store) : Request :=
  { url := s.url, method := s.method, headers := s.mkHeaders st,
    body := s.body }

/-- The shared control flow of every protected operation (api.js repeats it
verbatim in `getUserProfile`, `summarizeText`, `summarizeYouTube`,
`summarizePDF`, `generateQuiz`, `getUserSummaries`, `getUserQuizzes`):
fetch with headers built from current storage; on 401 run `handleAuthError`
and, if it reports a successful refresh, re-invoke the whole operation
(fuel bounds that recursion); otherwise reject on non-2xx with
`error.detail || default`, else resolve with the parsed body. -/
def protectedOp (s : OpSpec) : Nat → Ctx → OpResult × Ctx
  | 0, ctx => (OpResult.fuelOut, ctx)
  | Nat.succ fuel, ctx =>
      let (out, ctx1) := fetchStep (mkRequest s ctx.store) ctx
      match out with
      | FetchOutcome.netError => (OpResult.netErr, ctx1)
      | FetchOutcome.success status body =>
          match handleAuthError status ctx1 with
          | (Except.error msg, ctx2) => (OpResult.error msg, ctx2)
          | (Except.ok true, ctx2) => protectedOp s fuel ctx2
          | (Except.ok false, ctx2) =>
              if resOk status then (OpResult.ok body, ctx2)
              else
                (OpResult.error (jsOr body.detail (s.defaultMsg status)), ctx2)

/-- `getUserProfile` (api.js lines 109-123). -/
def getUserProfileSpec : OpSpec :=
  { url := API_BASE ++ "/api/user/profile", method := "GET",
    mkHeaders := getAuthHeaders, body := none,
    defaultMsg := fun _ => "Failed to fetch profile" }

/-- `getUserProfile`, fuel-bounded. -/
def getUserProfile : Nat → Ctx → OpResult × Ctx :=
  protectedOp getUserProfileSpec

/-- `summarizeText` (api.js lines 132-148). -/
def summarizeTextSpec (text : String) : OpSpec :=
  { url := API_BASE ++ "/api/summarize", method := "POST",
    mkHeaders := getAuthHeaders, body := some (ReqBody.jsonText text),
    defaultMsg := fun _ => "Failed to summarize text" }

/-- `summarizeText`, fuel-bounded. -/
def summarizeText (text : String) : Nat → Ctx → OpResult × Ctx :=
  protectedOp (summarizeTextSpec text)

/-- `summarizeYouTube` (api.js lines 150-168); its default message
interpolates the HTTP status. -/
def summarizeYouTubeSpec (url : String) : OpSpec :=
  { url := API_BASE ++ "/api/summarize", method := "POST",
    mkHeaders := getAuthHeaders, body := some (ReqBody.jsonYouTube url),
    defaultMsg := fun status =>
      "HTTP " ++ toString status ++ ": Failed to summarize YouTube" }

/-- `summarizeYouTube`, fuel-bounded. -/
def summarizeYouTube (url : String) : Nat → Ctx → OpResult × Ctx :=
  protectedOp (summarizeYouTubeSpec url)

/-- `summarizePDF` (api.js lines 170-192): multipart body, headers built
inline with only the optional bearer entry (no Content-Type). -/
def summarizePDFSpec (file : String) : OpSpec :=
  { url := API_BASE ++ "/api/summarize-pdf", method := "POST",
    mkHeaders := fun st =>
      { contentType := none, authorization := bearerOf st.access_token },
    body := some (ReqBody.formDataFile file),
    defaultMsg := fun _ => "Failed to summarize PDF" }

/-- `summarizePDF`, fuel-bounded. -/
def summarizePDF (file : String) : Nat → Ctx → OpResult × Ctx :=
  protectedOp (summarizePDFSpec file)

/-- `generateQuiz` (api.js lines 196-212). -/
def generateQuizSpec (summary : String) : OpSpec :=
  { url := API_BASE ++ "/api/quiz", method := "POST",
    mkHeaders := getAuthHeaders, body := some (ReqBody.jsonQuizText summary),
    defaultMsg := fun _ => "Failed to generate quiz" }

/-- `generateQuiz`, fuel-bounded. -/
def generateQuiz (summary : String) : Nat → Ctx → OpResult × Ctx :=
  protectedOp (generateQuizSpec summary)

/-- `getUserSummaries` (api.js lines 244-258). -/
def getUserSummariesSpec : OpSpec :=
  { url := API_BASE ++ "/api/user/summaries", method := "GET",
    mkHeaders := getAuthHeaders, body := none,
    defaultMsg := fun _ => "Failed to fetch summaries" }

/-- `getUserSummaries`, fuel-bounded. -/
def getUserSummaries : Nat → Ctx → OpResult × Ctx :=
  protectedOp getUserSummariesSpec

/-- `getUserQuizzes` (api.js lines 260-274). -/
def getUserQuizzesSpec : OpSpec :=
  { url := API_BASE ++ "/api/user/quizzes", method := "GET",
    mkHeaders := getAuthHeaders, body := none,
    defaultMsg := fun _ => "Failed to fetch quizzes" }

/-- `getUserQuizzes`, fuel-bounded. -/
def getUserQuizzes : Nat → Ctx → OpResult × Ctx :=
  protectedOp getUserQuizzesSpec

/-- `registerUser` (api.js lines 29-45): unauthenticated POST; rejects with
`error.detail || "Registration failed"` on non-2xx. -/
def registerUser (email : String) (phone : Option String) (fullName : String)
    (ctx : Ctx) : OpResult × Ctx :=
  let req : Request :=
    { url := API_BASE ++ "/api/auth/register", method := "POST",
      headers := jsonHeaders,
      body := some (ReqBody.jsonRegister email (jsOr phone "") fullName) }
  let (out, ctx1) := fetchStep req ctx
  match out with
  | FetchOutcome.netError => (OpResult.netErr, ctx1)
  | FetchOutcome.success status body =>
      if resOk status then (OpResult.ok body, ctx1)
      else (OpResult.error (jsOr body.detail "Registration failed"), ctx1)

/-- `sendOTP` (api.js lines 47-62). -/
def sendOTP (phone : String) (email : String) (ctx : Ctx) : OpResult × Ctx :=
  let req : Request :=
    { url := API_BASE ++ "/api/auth/send-otp", method := "POST",
      headers := jsonHeaders,
      body := some (ReqBody.jsonSendOtp email phone) }
  let (out, ctx1) := fetchStep req ctx
  match out with
  | FetchOutcome.netError => (OpResult.netErr, ctx1)
  | FetchOutcome.success status body =>
      if resOk status then (OpResult.ok body, ctx1)
      else (OpResult.error (jsOr body.detail "Failed to send OTP"), ctx1)

/-- `verifyOTP` (api.js lines 64-86): on 2xx stores `data.access_token` then
`data.refresh_token` and resolves with the parsed body; on non-2xx rejects
with `error.detail || "Invalid OTP"` without touching storage. -/
def verifyOTP (email : String) (otp : String) (ctx : Ctx) : OpResult × Ctx :=
  let req : Request :=
    { url := API_BASE ++ "/api/auth/verify-otp", method := "POST",
      headers := jsonHeaders,
      body := some (ReqBody.jsonVerifyOtp email otp) }
  let (out, ctx1) := fetchStep req ctx
  match out with
  | FetchOutcome.netError => (OpResult.netErr, ctx1)
  | FetchOutcome.success status body =>
      if resOk status then
        let ctx2 := lsSetItem accessKey (jsStr body.access_token) ctx1
        let ctx3 := lsSetItem refreshKey (jsStr body.refresh_token) ctx2
        (OpResult.ok body, ctx3)
      else (OpResult.error (jsOr body.detail "Invalid OTP"), ctx1)

/-- `logout` (api.js lines 125-128): unconditionally remove both tokens. -/
def logout (ctx : Ctx) : Ctx :=
  lsRemoveItem refreshKey (lsRemoveItem accessKey ctx)

/-- `downloadQuizPdf` (api.js lines 214-240): unauthenticated POST; any
failure inside the try block (non-2xx or transport error) reaches the catch,
which calls `console.error` and rethrows; success triggers a DOM file save
(not modelled) and resolves. -/
def downloadQuizPdf (title : String) (quizData : String) (ctx : Ctx) :
    OpResult × Ctx :=
  let req : Request :=
    { url := API_BASE ++ "/api/download-quiz", method := "POST",
      headers := jsonHeaders,
      body := some (ReqBody.jsonDownloadQuiz title quizData) }
  let (out, ctx1) := fetchStep req ctx
  match out with
  | FetchOutcome.netError =>
      (OpResult.netErr, { ctx1 with consoleErrors := ctx1.consoleErrors + 1 })
  | FetchOutcome.success status body =>
      if resOk status then (OpResult.ok body, ctx1)
      else
        (OpResult.error (jsOr body.detail "Failed to download PDF"),
         { ctx1 with consoleErrors := ctx1.consoleErrors + 1 })

/-- Requests in a log addressed to the refresh endpoint. -/
def countRefreshRequests (l : List Request) : Nat :=
  (l.filter (fun r => r.url = API_BASE ++ "/api/auth/refresh")).length

/-- Network script made of `n` rounds of a 401 response followed by a
successful refresh response carrying a fresh access token. -/
def loop401 : Nat → List FetchOutcome
  | 0 => []
  | n + 1 =>
      FetchOutcome.success 401 {} ::
        FetchOutcome.success 200 { access_token := some "A1" } :: loop401 n


theorem resOk_401 : resOk 401 = false := by decide

/-- Unfolding: a first response that is 2xx resolves at once with its body. -/
theorem step_ok (s : OpSpec) (fuel : Nat) (st : Store) (status : Nat)
    (b : Body) (rest : List FetchOutcome) (lg : List Request)
    (sl : List StorageEvent) (hr : Option String) (ce : Nat)
    (hok : resOk status = true) :
    protectedOp s (fuel + 1) ⟨st, FetchOutcome.success status b :: rest, lg, sl, hr, ce⟩ =
      (OpResult.ok b, ⟨st, rest, lg ++ [mkRequest s st], sl, hr, ce⟩) := by
  have h401 : status ≠ 401 := by
    intro h; rw [h] at hok; exact absurd hok (by decide)
  simp [protectedOp, fetchStep, handleAuthError, h401, hok]

/-- Unfolding: a first response that is neither 2xx nor 401 rejects with the
backend detail (or the operation's default message). -/
theorem step_err (s : OpSpec) (fuel : Nat) (st : Store) (status : Nat)
    (b : Body) (rest : List FetchOutcome) (lg : List Request)
    (sl : List StorageEvent) (hr : Option String) (ce : Nat)
    (h401 : status ≠ 401) (hok : resOk status = false) :
    protectedOp s (fuel + 1) ⟨st, FetchOutcome.success status b :: rest, lg, sl, hr, ce⟩ =
      (OpResult.error (jsOr b.detail (s.defaultMsg status)),
       ⟨st, rest, lg ++ [mkRequest s st], sl, hr, ce⟩) := by
  simp [protectedOp, fetchStep, handleAuthError, h401, hok]

/-- Unfolding: a transport error on the first request rejects at once. -/
theorem step_net (s : OpSpec) (fuel : Nat) (st : Store)
    (rest : List FetchOutcome) (lg : List Request)
    (sl : List StorageEvent) (hr : Option String) (ce : Nat) :
    protectedOp s (fuel + 1) ⟨st, FetchOutcome.netError :: rest, lg, sl, hr, ce⟩ =
      (OpResult.netErr, ⟨st, rest, lg ++ [mkRequest s st], sl, hr, ce⟩) := by
  simp [protectedOp, fetchStep]

/-- Unfolding: 401 with a falsy stored refresh token — recovery fails without
touching the network again; both tokens are removed and the session-expired
error is thrown. -/
theorem step_401_norefresh (s : OpSpec) (fuel : Nat) (st : Store)
    (b : Body) (rest : List FetchOutcome) (lg : List Request)
    (sl : List StorageEvent) (hr : Option String) (ce : Nat)
    (hrt : jsFalsy st.refresh_token = true) :
    protectedOp s (fuel + 1) ⟨st, FetchOutcome.success 401 b :: rest, lg, sl, hr, ce⟩ =
      (OpResult.error sessionExpiredMsg,
       ⟨⟨none, none⟩, rest, lg ++ [mkRequest s st],
        sl ++ [StorageEvent.removeItem accessKey, StorageEvent.removeItem refreshKey],
        some "/login", ce⟩) := by
  simp [protectedOp, fetchStep, handleAuthError, refreshAccessToken, lsGetItem,
    refreshKey, accessKey, hrt, lsRemoveItem]



/-- Unfolding: 401, truthy refresh token, but the refresh call gets a non-2xx
response — tokens cleared, session-expired error. -/
theorem step_401_refresh_http_fail (s : OpSpec) (fuel : Nat) (st : Store)
    (b : Body) (r : String) (s2 : Nat) (b2 : Body)
    (rest : List FetchOutcome) (lg : List Request)
    (sl : List StorageEvent) (hr : Option String) (ce : Nat)
    (hrt : st.refresh_token = some r) (hne : r ≠ "")
    (hok : resOk s2 = false) :
    protectedOp s (fuel + 1)
        ⟨st, FetchOutcome.success 401 b :: FetchOutcome.success s2 b2 :: rest, lg, sl, hr, ce⟩ =
      (OpResult.error sessionExpiredMsg,
       ⟨⟨none, none⟩, rest, lg ++ [mkRequest s st, refreshRequest r],
        sl ++ [StorageEvent.removeItem accessKey, StorageEvent.removeItem refreshKey],
        some "/login", ce⟩) := by
  simp [protectedOp, fetchStep, handleAuthError, refreshAccessToken, lsGetItem,
    refreshKey, accessKey, hrt, hne, jsFalsy, jsStr, hok, lsRemoveItem, refreshRequest]

/-- Unfolding: 401, truthy refresh token, refresh call hits a transport
error — tokens cleared, session-expired error. -/
theorem step_401_refresh_net_fail (s : OpSpec) (fuel : Nat) (st : Store)
    (b : Body) (r : String)
    (rest : List FetchOutcome) (lg : List Request)
    (sl : List StorageEvent) (hr : Option String) (ce : Nat)
    (hrt : st.refresh_token = some r) (hne : r ≠ "") :
    protectedOp s (fuel + 1)
        ⟨st, FetchOutcome.success 401 b :: FetchOutcome.netError :: rest, lg, sl, hr, ce⟩ =
      (OpResult.error sessionExpiredMsg,
       ⟨⟨none, none⟩, rest, lg ++ [mkRequest s st, refreshRequest r],
        sl ++ [StorageEvent.removeItem accessKey, StorageEvent.removeItem refreshKey],
        some "/login", ce⟩) := by
  simp [protectedOp, fetchStep, handleAuthError, refreshAccessToken, lsGetItem,
    refreshKey, accessKey, hrt, hne, jsFalsy, jsStr, lsRemoveItem, refreshRequest]

/-- Unfolding: 401, truthy refresh token, successful refresh — the new access
token is stored and the whole operation recurses (the retry). -/
theorem step_401_refresh_ok (s : OpSpec) (fuel : Nat) (st : Store)
    (b : Body) (r : String) (s2 : Nat) (b2 : Body)
    (rest : List FetchOutcome) (lg : List Request)
    (sl : List StorageEvent) (hr : Option String) (ce : Nat)
    (hrt : st.refresh_token = some r) (hne : r ≠ "")
    (hok : resOk s2 = true) :
    protectedOp s (fuel + 1)
        ⟨st, FetchOutcome.success 401 b :: FetchOutcome.success s2 b2 :: rest, lg, sl, hr, ce⟩ =
      protectedOp s fuel
        ⟨⟨some (jsStr b2.access_token), some r⟩, rest,
         lg ++ [mkRequest s st, refreshRequest r],
         sl ++ [StorageEvent.setItem accessKey (jsStr b2.access_token)], hr, ce⟩ := by
  simp [protectedOp, fetchStep, handleAuthError, refreshAccessToken, lsGetItem,
    refreshKey, accessKey, hrt, hne, jsFalsy, jsStr, hok, lsSetItem, refreshRequest]



/-- Unfolding: an exhausted script behaves as a transport error. -/
theorem step_nil (s : OpSpec) (fuel : Nat) (st : Store) (lg : List Request)
    (sl : List StorageEvent) (hr : Option String) (ce : Nat) :
    protectedOp s (fuel + 1) ⟨st, [], lg, sl, hr, ce⟩ =
      (OpResult.netErr, ⟨st, [], lg ++ [mkRequest s st], sl, hr, ce⟩) := by
  simp [protectedOp, fetchStep]

/-- Unfolding: 401 with a truthy refresh token but no scripted refresh
response (transport error) — tokens cleared, session-expired error. -/
theorem step_401_refresh_nil (s : OpSpec) (fuel : Nat) (st : Store)
    (b : Body) (r : String) (lg : List Request)
    (sl : List StorageEvent) (hr : Option String) (ce : Nat)
    (hrt : st.refresh_token = some r) (hne : r ≠ "") :
    protectedOp s (fuel + 1) ⟨st, [FetchOutcome.success 401 b], lg, sl, hr, ce⟩ =
      (OpResult.error sessionExpiredMsg,
       ⟨⟨none, none⟩, [], lg ++ [mkRequest s st, refreshRequest r],
        sl ++ [StorageEvent.removeItem accessKey, StorageEvent.removeItem refreshKey],
        some "/login", ce⟩) := by
  simp [protectedOp, fetchStep, handleAuthError, refreshAccessToken, lsGetItem,
    refreshKey, accessKey, hrt, hne, jsFalsy, jsStr, lsRemoveItem, refreshRequest]

/-- Frame/induction lemma for the shared protected-operation control flow:
the request log only grows; the storage log only grows, and outside the
session-expired path it grows only by access-token `setItem` events; a token
slot can become empty only if it started empty or the run ended in the
session-expired error. -/
theorem protectedOp_frame (s : OpSpec) :
    ∀ (fuel : Nat) (ctx : Ctx),
      (∃ l, (protectedOp s fuel ctx).2.log = ctx.log ++ l) ∧
      (∃ l, (protectedOp s fuel ctx).2.storeLog = ctx.storeLog ++ l ∧
        ((protectedOp s fuel ctx).1 ≠ OpResult.error sessionExpiredMsg →
          ∀ e ∈ l, ∃ v, e = StorageEvent.setItem accessKey v)) ∧
      ((protectedOp s fuel ctx).2.store.access_token = none →
        ctx.store.access_token = none ∨
        (protectedOp s fuel ctx).1 = OpResult.error sessionExpiredMsg) ∧
      ((protectedOp s fuel ctx).2.store.refresh_token = none →
        ctx.store.refresh_token = none ∨
        (protectedOp s fuel ctx).1 = OpResult.error sessionExpiredMsg) := by
  intro fuel
  induction fuel with
  | zero =>
      intro ctx
      exact ⟨⟨[], by simp [protectedOp]⟩, ⟨[], by simp [protectedOp]⟩,
        by simp [protectedOp], by simp [protectedOp]⟩
  | succ fuel ih =>
      rintro ⟨st, script, lg, sl, hr, ce⟩
      rcases script with _ | ⟨o, rest⟩
      · rw [step_nil]
        exact ⟨⟨[mkRequest s st], rfl⟩, ⟨[], by simp⟩,
          fun h => Or.inl h, fun h => Or.inl h⟩
      rcases o with ⟨status, b⟩ | _
      · by_cases h401 : status = 401
        · subst h401
          rcases hrt : st.refresh_token with _ | r
          · rw [step_401_norefresh s fuel st b rest lg sl hr ce (by simp [jsFalsy, hrt])]
            exact ⟨⟨[mkRequest s st], rfl⟩,
              ⟨[StorageEvent.removeItem accessKey, StorageEvent.removeItem refreshKey],
                rfl, by intro h; exact absurd rfl h⟩,
              fun _ => Or.inr rfl, fun _ => Or.inr rfl⟩
          · by_cases hre : r = ""
            · subst hre
              rw [step_401_norefresh s fuel st b rest lg sl hr ce (by simp [jsFalsy, hrt])]
              exact ⟨⟨[mkRequest s st], rfl⟩,
                ⟨[StorageEvent.removeItem accessKey, StorageEvent.removeItem refreshKey],
                  rfl, by intro h; exact absurd rfl h⟩,
                fun _ => Or.inr rfl, fun _ => Or.inr rfl⟩
            · rcases rest with _ | ⟨o2, rest2⟩
              · rw [step_401_refresh_nil s fuel st b r lg sl hr ce hrt hre]
                exact ⟨⟨[mkRequest s st, refreshRequest r], rfl⟩,
                  ⟨[StorageEvent.removeItem accessKey, StorageEvent.removeItem refreshKey],
                    rfl, by intro h; exact absurd rfl h⟩,
                  fun _ => Or.inr rfl, fun _ => Or.inr rfl⟩
              rcases o2 with ⟨s2, b2⟩ | _
              · by_cases hok2 : resOk s2 = true
                · rw [step_401_refresh_ok s fuel st b r s2 b2 rest2 lg sl hr ce hrt hre hok2]
                  obtain ⟨⟨l1, hl1⟩, ⟨l2, hl2, hl2e⟩, hacc, hrefr⟩ :=
                    ih ⟨⟨some (jsStr b2.access_token), some r⟩, rest2,
                      lg ++ [mkRequest s st, refreshRequest r],
                      sl ++ [StorageEvent.setItem accessKey (jsStr b2.access_token)], hr, ce⟩
                  refine ⟨⟨[mkRequest s st, refreshRequest r] ++ l1, by
                      simpa [List.append_assoc] using hl1⟩,
                    ⟨[StorageEvent.setItem accessKey (jsStr b2.access_token)] ++ l2, by
                      simpa [List.append_assoc] using hl2, ?_⟩, ?_, ?_⟩
                  · intro hne e he
                    rcases List.mem_append.mp he with hh | hh
                    · exact ⟨jsStr b2.access_token, by simpa using hh⟩
                    · exact hl2e hne e hh
                  · intro h
                    rcases hacc h with h' | h'
                    · exact absurd h' (by simp)
                    · exact Or.inr h'
                  · intro h
                    rcases hrefr h with h' | h'
                    · exact absurd h' (by simp)
                    · exact Or.inr h'
                · rw [step_401_refresh_http_fail s fuel st b r s2 b2 rest2 lg sl hr ce hrt hre
                    (by simpa using hok2)]
                  exact ⟨⟨[mkRequest s st, refreshRequest r], rfl⟩,
                    ⟨[StorageEvent.removeItem accessKey, StorageEvent.removeItem refreshKey],
                      rfl, by intro h; exact absurd rfl h⟩,
                    fun _ => Or.inr rfl, fun _ => Or.inr rfl⟩
              · rw [step_401_refresh_net_fail s fuel st b r rest2 lg sl hr ce hrt hre]
                exact ⟨⟨[mkRequest s st, refreshRequest r], rfl⟩,
                  ⟨[StorageEvent.removeItem accessKey, StorageEvent.removeItem refreshKey],
                    rfl, by intro h; exact absurd rfl h⟩,
                  fun _ => Or.inr rfl, fun _ => Or.inr rfl⟩
        · by_cases hok : resOk status = true
          · rw [step_ok s fuel st status b rest lg sl hr ce hok]
            exact ⟨⟨[mkRequest s st], rfl⟩, ⟨[], by simp⟩,
              fun h => Or.inl h, fun h => Or.inl h⟩
          · rw [step_err s fuel st status b rest lg sl hr ce h401 (by simpa using hok)]
            exact ⟨⟨[mkRequest s st], rfl⟩, ⟨[], by simp⟩,
              fun h => Or.inl h, fun h => Or.inl h⟩
      · rw [step_net]
        exact ⟨⟨[mkRequest s st], rfl⟩, ⟨[], by simp⟩,
          fun h => Or.inl h, fun h => Or.inl h⟩


/-- Every protected run with fuel issues, first, the request built from the
storage present at call time. -/
theorem protectedOp_first_req (s : OpSpec) (fuel : Nat) (ctx : Ctx) :
    ∃ l, (protectedOp s (fuel + 1) ctx).2.log =
      ctx.log ++ mkRequest s ctx.store :: l := by
  rcases ctx with ⟨st, script, lg, sl, hr, ce⟩
  rcases script with _ | ⟨o, rest⟩
  · exact ⟨[], by rw [step_nil]⟩
  rcases o with ⟨status, b⟩ | _
  · by_cases h401 : status = 401
    · subst h401
      rcases hrt : st.refresh_token with _ | r
      · exact ⟨[], by rw [step_401_norefresh s fuel st b rest lg sl hr ce
          (by simp [jsFalsy, hrt])]⟩
      by_cases hre : r = ""
      · subst hre
        exact ⟨[], by rw [step_401_norefresh s fuel st b rest lg sl hr ce
          (by simp [jsFalsy, hrt])]⟩
      rcases rest with _ | ⟨o2, rest2⟩
      · exact ⟨[refreshRequest r], by
          rw [step_401_refresh_nil s fuel st b r lg sl hr ce hrt hre]⟩
      rcases o2 with ⟨s2, b2⟩ | _
      · by_cases hok2 : resOk s2 = true
        · rw [step_401_refresh_ok s fuel st b r s2 b2 rest2 lg sl hr ce hrt hre hok2]
          obtain ⟨⟨l1, hl1⟩, -, -, -⟩ := protectedOp_frame s fuel
            ⟨⟨some (jsStr b2.access_token), some r⟩, rest2,
              lg ++ [mkRequest s st, refreshRequest r],
              sl ++ [StorageEvent.setItem accessKey (jsStr b2.access_token)], hr, ce⟩
          exact ⟨refreshRequest r :: l1, by simpa [List.append_assoc] using hl1⟩
        · exact ⟨[refreshRequest r], by
            rw [step_401_refresh_http_fail s fuel st b r s2 b2 rest2 lg sl hr ce hrt hre
              (by simpa using hok2)]⟩
      · exact ⟨[refreshRequest r], by
          rw [step_401_refresh_net_fail s fuel st b r rest2 lg sl hr ce hrt hre]⟩
    · by_cases hok : resOk status = true
      · exact ⟨[], by rw [step_ok s fuel st status b rest lg sl hr ce hok]⟩
      · exact ⟨[], by rw [step_err s fuel st status b rest lg sl hr ce h401
          (by simpa using hok)]⟩
  · exact ⟨[], by rw [step_net]⟩



/-- On a 401 first response the run is insensitive to that response's body
(the backend-supplied error document is never consulted), and it either
throws the session-expired error or proceeds as the retried operation. -/
theorem protectedOp_401 (s : OpSpec) (fuel : Nat) (st : Store) (b b' : Body)
    (rest : List FetchOutcome) (lg : List Request) (sl : List StorageEvent)
    (hr : Option String) (ce : Nat) :
    protectedOp s (fuel + 1) ⟨st, FetchOutcome.success 401 b :: rest, lg, sl, hr, ce⟩ =
      protectedOp s (fuel + 1) ⟨st, FetchOutcome.success 401 b' :: rest, lg, sl, hr, ce⟩ ∧
    ((protectedOp s (fuel + 1) ⟨st, FetchOutcome.success 401 b :: rest, lg, sl, hr, ce⟩).1 =
        OpResult.error sessionExpiredMsg ∨
      ∃ ctx', protectedOp s (fuel + 1)
          ⟨st, FetchOutcome.success 401 b :: rest, lg, sl, hr, ce⟩ =
        protectedOp s fuel ctx') := by
  rcases hrt : st.refresh_token with _ | r
  · rw [step_401_norefresh s fuel st b rest lg sl hr ce (by simp [jsFalsy, hrt]),
      step_401_norefresh s fuel st b' rest lg sl hr ce (by simp [jsFalsy, hrt])]
    exact ⟨rfl, Or.inl rfl⟩
  by_cases hre : r = ""
  · subst hre
    rw [step_401_norefresh s fuel st b rest lg sl hr ce (by simp [jsFalsy, hrt]),
      step_401_norefresh s fuel st b' rest lg sl hr ce (by simp [jsFalsy, hrt])]
    exact ⟨rfl, Or.inl rfl⟩
  rcases rest with _ | ⟨o2, rest2⟩
  · rw [step_401_refresh_nil s fuel st b r lg sl hr ce hrt hre,
      step_401_refresh_nil s fuel st b' r lg sl hr ce hrt hre]
    exact ⟨rfl, Or.inl rfl⟩
  rcases o2 with ⟨s2, b2⟩ | _
  · by_cases hok2 : resOk s2 = true
    · rw [step_401_refresh_ok s fuel st b r s2 b2 rest2 lg sl hr ce hrt hre hok2,
        step_401_refresh_ok s fuel st b' r s2 b2 rest2 lg sl hr ce hrt hre hok2]
      exact ⟨rfl, Or.inr ⟨_, rfl⟩⟩
    · rw [step_401_refresh_http_fail s fuel st b r s2 b2 rest2 lg sl hr ce hrt hre
          (by simpa using hok2),
        step_401_refresh_http_fail s fuel st b' r s2 b2 rest2 lg sl hr ce hrt hre
          (by simpa using hok2)]
      exact ⟨rfl, Or.inl rfl⟩
  · rw [step_401_refresh_net_fail s fuel st b r rest2 lg sl hr ce hrt hre,
      step_401_refresh_net_fail s fuel st b' r rest2 lg sl hr ce hrt hre]
    exact ⟨rfl, Or.inl rfl⟩

/-- Request counting distributes over log concatenation. -/
theorem countRefreshRequests_append (a b : List Request) :
    countRefreshRequests (a ++ b) =
      countRefreshRequests a + countRefreshRequests b := by
  simp [countRefreshRequests, List.filter_append]

/-- `mkRequest` hits the operation's own endpoint. -/
theorem countRefreshRequests_mkRequest (s : OpSpec) (st : Store)
    (hurl : s.url ≠ API_BASE ++ "/api/auth/refresh") :
    countRefreshRequests [mkRequest s st] = 0 := by
  simp [countRefreshRequests, mkRequest, hurl]

/-- The refresh request itself counts once. -/
theorem countRefreshRequests_refreshRequest (r : String) :
    countRefreshRequests [refreshRequest r] = 1 := by
  simp [countRefreshRequests, refreshRequest]



/-- With a truthy stored refresh token, `n` rounds of (401, successful
refresh) followed by a final 2xx response resolve with that final body after
issuing exactly `n` requests to the refresh endpoint: the retry recursion is
bounded only by the script, not by a retry budget. -/
theorem protectedOp_loop (s : OpSpec)
    (hurl : s.url ≠ API_BASE ++ "/api/auth/refresh") :
    ∀ (n : Nat) (st : Store) (r : String) (d : Body) (lg : List Request)
      (sl : List StorageEvent) (hr : Option String) (ce : Nat),
      st.refresh_token = some r → r ≠ "" →
      (protectedOp s (n + 1)
          ⟨st, loop401 n ++ [FetchOutcome.success 200 d], lg, sl, hr, ce⟩).1 =
        OpResult.ok d ∧
      countRefreshRequests (protectedOp s (n + 1)
          ⟨st, loop401 n ++ [FetchOutcome.success 200 d], lg, sl, hr, ce⟩).2.log =
        countRefreshRequests lg + n := by
  intro n
  induction n with
  | zero =>
      intro st r d lg sl hr ce hrt hre
      rw [show loop401 0 ++ [FetchOutcome.success 200 d] =
            [FetchOutcome.success 200 d] from rfl,
        step_ok s 0 st 200 d [] lg sl hr ce (by decide)]
      refine ⟨rfl, ?_⟩
      rw [countRefreshRequests_append, countRefreshRequests_mkRequest s st hurl]
  | succ n ih =>
      intro st r d lg sl hr ce hrt hre
      rw [show loop401 (n + 1) ++ [FetchOutcome.success 200 d] =
            FetchOutcome.success 401 {} ::
              FetchOutcome.success 200 { access_token := some "A1" } ::
                (loop401 n ++ [FetchOutcome.success 200 d]) from rfl,
        step_401_refresh_ok s (n + 1) st {} r 200 { access_token := some "A1" }
          (loop401 n ++ [FetchOutcome.success 200 d]) lg sl hr ce hrt hre (by decide)]
      obtain ⟨h1, h2⟩ := ih ⟨some (jsStr (some "A1")), some r⟩ r d
        (lg ++ [mkRequest s st, refreshRequest r])
        (sl ++ [StorageEvent.setItem accessKey (jsStr (some "A1"))]) hr ce rfl hre
      refine ⟨h1, ?_⟩
      rw [h2, countRefreshRequests_append]
      have : countRefreshRequests [mkRequest s st, refreshRequest r] = 1 := by
        simp [countRefreshRequests, mkRequest, refreshRequest, hurl]
      omega



/-- A failed refresh leaves storage untouched (it only reports `false`); a
successful one leaves the refresh token untouched and writes `some` value
into the access slot. -/
theorem refreshAccessToken_frame (ctx : Ctx) :
    ((refreshAccessToken ctx).1 = false →
      (refreshAccessToken ctx).2.store = ctx.store ∧
      (refreshAccessToken ctx).2.storeLog = ctx.storeLog) ∧
    (refreshAccessToken ctx).2.store.refresh_token = ctx.store.refresh_token ∧
    ((refreshAccessToken ctx).2.store.access_token = none →
      ctx.store.access_token = none) := by
  rcases ctx with ⟨st, script, lg, sl, hr, ce⟩
  by_cases hf : jsFalsy st.refresh_token = true
  · simp [refreshAccessToken, lsGetItem, refreshKey, accessKey, hf]
  · rcases script with _ | ⟨o, rest⟩
    · simp [refreshAccessToken, lsGetItem, refreshKey, accessKey, hf, fetchStep]
    rcases o with ⟨status, b⟩ | _
    · by_cases hok : resOk status = true
      · simp [refreshAccessToken, lsGetItem, refreshKey, accessKey, hf, fetchStep,
          hok, lsSetItem]
      · simp [refreshAccessToken, lsGetItem, refreshKey, accessKey, hf, fetchStep,
          hok]
    · simp [refreshAccessToken, lsGetItem, refreshKey, accessKey, hf, fetchStep]

/-- `registerUser` never touches storage. -/
theorem registerUser_store (email : String) (phone : Option String)
    (fullName : String) (ctx : Ctx) :
    (registerUser email phone fullName ctx).2.store = ctx.store ∧
    (registerUser email phone fullName ctx).2.storeLog = ctx.storeLog := by
  rcases ctx with ⟨st, script, lg, sl, hr, ce⟩
  rcases script with _ | ⟨o, rest⟩
  · simp [registerUser, fetchStep]
  rcases o with ⟨status, b⟩ | _
  · by_cases hok : resOk status = true <;> simp [registerUser, fetchStep, hok]
  · simp [registerUser, fetchStep]

/-- `sendOTP` never touches storage. -/
theorem sendOTP_store (phone email : String) (ctx : Ctx) :
    (sendOTP phone email ctx).2.store = ctx.store ∧
    (sendOTP phone email ctx).2.storeLog = ctx.storeLog := by
  rcases ctx with ⟨st, script, lg, sl, hr, ce⟩
  rcases script with _ | ⟨o, rest⟩
  · simp [sendOTP, fetchStep]
  rcases o with ⟨status, b⟩ | _
  · by_cases hok : resOk status = true <;> simp [sendOTP, fetchStep, hok]
  · simp [sendOTP, fetchStep]

/-- `downloadQuizPdf` never touches storage. -/
theorem downloadQuizPdf_store (title quizData : String) (ctx : Ctx) :
    (downloadQuizPdf title quizData ctx).2.store = ctx.store ∧
    (downloadQuizPdf title quizData ctx).2.storeLog = ctx.storeLog := by
  rcases ctx with ⟨st, script, lg, sl, hr, ce⟩
  rcases script with _ | ⟨o, rest⟩
  · simp [downloadQuizPdf, fetchStep]
  rcases o with ⟨status, b⟩ | _
  · by_cases hok : resOk status = true <;> simp [downloadQuizPdf, fetchStep, hok]
  · simp [downloadQuizPdf, fetchStep]

/-- `verifyOTP` never empties a token slot: on success both slots are
written with `some` values, on failure storage is untouched. -/
theorem verifyOTP_never_clears (email otp : String) (ctx : Ctx) :
    ((verifyOTP email otp ctx).2.store.access_token = none →
      ctx.store.access_token = none) ∧
    ((verifyOTP email otp ctx).2.store.refresh_token = none →
      ctx.store.refresh_token = none) := by
  rcases ctx with ⟨st, script, lg, sl, hr, ce⟩
  rcases script with _ | ⟨o, rest⟩
  · simp [verifyOTP, fetchStep]
  rcases o with ⟨status, b⟩ | _
  · by_cases hok : resOk status = true <;>
      simp [verifyOTP, fetchStep, hok, lsSetItem, accessKey, refreshKey]
  · simp [verifyOTP, fetchStep]


/-- `verifyOTP` on a 2xx response: stores both tokens (access then refresh)
and resolves with the parsed body. -/
theorem verifyOTP_ok_eq (email otp : String) (st : Store) (status : Nat)
    (b : Body) (rest : List FetchOutcome) (h : resOk status = true) :
    verifyOTP email otp (initCtx st (FetchOutcome.success status b :: rest)) =
      (OpResult.ok b,
       { store := ⟨some (jsStr b.access_token), some (jsStr b.refresh_token)⟩,
         script := rest,
         log := [{ url := API_BASE ++ "/api/auth/verify-otp", method := "POST",
                   headers := jsonHeaders,
                   body := some (ReqBody.jsonVerifyOtp email otp) }],
         storeLog := [StorageEvent.setItem accessKey (jsStr b.access_token),
                      StorageEvent.setItem refreshKey (jsStr b.refresh_token)],
         href := none, consoleErrors := 0 }) := by
  simp [verifyOTP, fetchStep, initCtx, h, lsSetItem, accessKey, refreshKey]

/-- `verifyOTP` on a non-2xx response: rejects without any storage write. -/
theorem verifyOTP_nonOk_eq (email otp : String) (st : Store) (status : Nat)
    (b : Body) (rest : List FetchOutcome) (h : resOk status = false) :
    verifyOTP email otp (initCtx st (FetchOutcome.success status b :: rest)) =
      (OpResult.error (jsOr b.detail "Invalid OTP"),
       { store := st,
         script := rest,
         log := [{ url := API_BASE ++ "/api/auth/verify-otp", method := "POST",
                   headers := jsonHeaders,
                   body := some (ReqBody.jsonVerifyOtp email otp) }],
         storeLog := [], href := none, consoleErrors := 0 }) := by
  simp [verifyOTP, fetchStep, initCtx, h]


/-- C6: if no refresh token is stored, `refreshAccessToken` fails immediately
(returns false) and the context is entirely unchanged — in particular no
request is issued to the refresh endpoint and no scripted response is
consumed. -/
theorem c6_no_refresh_token_fails_without_request (ctx : Ctx)
    (h : ctx.store.refresh_token = none) :
    refreshAccessToken ctx = (false, ctx) := by
  simp [refreshAccessToken, lsGetItem, refreshKey, accessKey, h, jsFalsy]

/-- Witness for C6 at a concrete context. -/
theorem c6_witness :
    refreshAccessToken (initCtx ⟨some "A1", none⟩ [FetchOutcome.success 200 {}]) =
      (false, initCtx ⟨some "A1", none⟩ [FetchOutcome.success 200 {}]) :=
  c6_no_refresh_token_fails_without_request _ rfl

/-- C7: `logout` is a total operation that always removes both stored tokens
(issuing both removeItem calls even when no tokens were present); afterwards
no token remains in storage, and nothing else of the context is affected. -/
theorem c7_logout_always_clears_both (ctx : Ctx) :
    (logout ctx).store.access_token = none ∧
    (logout ctx).store.refresh_token = none ∧
    (logout ctx).storeLog = ctx.storeLog ++
      [StorageEvent.removeItem accessKey, StorageEvent.removeItem refreshKey] ∧
    (logout ctx).script = ctx.script ∧
    (logout ctx).log = ctx.log ∧
    (logout ctx).href = ctx.href := by
  simp [logout, lsRemoveItem, accessKey, refreshKey]

/-- C4: `verifyOTP` on a 2xx response resolves with the parsed body after
persisting both tokens (the caller observes the single final state with both
slots written, in source order access then refresh); on a non-2xx response
it rejects with the backend detail (or "Invalid OTP") and performs no
storage write at all. -/
theorem c4_verifyOTP_persists_both_or_nothing (email otp : String) (st : Store)
    (status : Nat) (b : Body) (rest : List FetchOutcome) :
    (resOk status = true →
      verifyOTP email otp (initCtx st (FetchOutcome.success status b :: rest)) =
        (OpResult.ok b,
         { store := ⟨some (jsStr b.access_token), some (jsStr b.refresh_token)⟩,
           script := rest,
           log := [{ url := API_BASE ++ "/api/auth/verify-otp", method := "POST",
                     headers := jsonHeaders,
                     body := some (ReqBody.jsonVerifyOtp email otp) }],
           storeLog := [StorageEvent.setItem accessKey (jsStr b.access_token),
                        StorageEvent.setItem refreshKey (jsStr b.refresh_token)],
           href := none, consoleErrors := 0 })) ∧
    (resOk status = false →
      verifyOTP email otp (initCtx st (FetchOutcome.success status b :: rest)) =
        (OpResult.error (jsOr b.detail "Invalid OTP"),
         { store := st,
           script := rest,
           log := [{ url := API_BASE ++ "/api/auth/verify-otp", method := "POST",
                     headers := jsonHeaders,
                     body := some (ReqBody.jsonVerifyOtp email otp) }],
           storeLog := [], href := none, consoleErrors := 0 })) :=
  ⟨verifyOTP_ok_eq email otp st status b rest,
   verifyOTP_nonOk_eq email otp st status b rest⟩

/-- Witness for C4: the spec's own example, a 200 response carrying tokens
A1/R1, and a 400 response rejecting without persistence. -/
theorem c4_witness :
    verifyOTP "a@b.com" "123456" (initCtx ⟨none, none⟩
        [FetchOutcome.success 200
          { access_token := some "A1", refresh_token := some "R1", payload := "user" }]) =
      (OpResult.ok
        { access_token := some "A1", refresh_token := some "R1", payload := "user" },
       { store := ⟨some "A1", some "R1"⟩, script := [],
         log := [{ url := API_BASE ++ "/api/auth/verify-otp", method := "POST",
                   headers := jsonHeaders,
                   body := some (ReqBody.jsonVerifyOtp "a@b.com" "123456") }],
         storeLog := [StorageEvent.setItem accessKey "A1",
                      StorageEvent.setItem refreshKey "R1"],
         href := none, consoleErrors := 0 }) ∧
    (verifyOTP "a@b.com" "123456" (initCtx ⟨none, none⟩
        [FetchOutcome.success 400 { detail := some "Invalid OTP" }])).1 =
      OpResult.error "Invalid OTP" ∧
    (verifyOTP "a@b.com" "123456" (initCtx ⟨none, none⟩
        [FetchOutcome.success 400 { detail := some "Invalid OTP" }])).2.storeLog = [] := by
  refine ⟨?_, ?_, ?_⟩
  · exact (c4_verifyOTP_persists_both_or_nothing "a@b.com" "123456" ⟨none, none⟩ 200
      { access_token := some "A1", refresh_token := some "R1", payload := "user" } []).1
      (by decide)
  · rw [(c4_verifyOTP_persists_both_or_nothing "a@b.com" "123456" ⟨none, none⟩ 400
      { detail := some "Invalid OTP" } []).2 (by decide)]
    rfl
  · rw [(c4_verifyOTP_persists_both_or_nothing "a@b.com" "123456" ⟨none, none⟩ 400
      { detail := some "Invalid OTP" } []).2 (by decide)]



/-- C8: `downloadQuizPdf` always issues exactly one request and it carries no
Authorization header, whatever tokens are stored; on a non-2xx response it
logs the failure to the console and rethrows the backend detail (or the
default message), and on a transport error it logs and rethrows the error;
in every case storage is untouched. -/
theorem c8_downloadQuizPdf_unauthenticated_logs_and_rethrows
    (title quizData : String) (st : Store) :
    (∀ script : List FetchOutcome,
      (downloadQuizPdf title quizData (initCtx st script)).2.log.map
          (fun q => q.headers.authorization) = [none] ∧
      (downloadQuizPdf title quizData (initCtx st script)).2.store = st ∧
      (downloadQuizPdf title quizData (initCtx st script)).2.storeLog = []) ∧
    (∀ (status : Nat) (b : Body) (rest : List FetchOutcome),
      resOk status = false →
      (downloadQuizPdf title quizData
          (initCtx st (FetchOutcome.success status b :: rest))).1 =
        OpResult.error (jsOr b.detail "Failed to download PDF") ∧
      (downloadQuizPdf title quizData
          (initCtx st (FetchOutcome.success status b :: rest))).2.consoleErrors = 1) ∧
    (∀ rest : List FetchOutcome,
      (downloadQuizPdf title quizData (initCtx st (FetchOutcome.netError :: rest))).1 =
        OpResult.netErr ∧
      (downloadQuizPdf title quizData
          (initCtx st (FetchOutcome.netError :: rest))).2.consoleErrors = 1) := by
  refine ⟨?_, ?_, ?_⟩
  · intro script
    rcases script with _ | ⟨o, rest⟩
    · simp [downloadQuizPdf, fetchStep, initCtx, jsonHeaders]
    rcases o with ⟨status, b⟩ | _
    · by_cases hok : resOk status = true <;>
        simp [downloadQuizPdf, fetchStep, initCtx, hok, jsonHeaders]
    · simp [downloadQuizPdf, fetchStep, initCtx, jsonHeaders]
  · intro status b rest hok
    constructor <;> simp [downloadQuizPdf, fetchStep, initCtx, hok]
  · intro rest
    constructor <;> simp [downloadQuizPdf, fetchStep, initCtx]

/-- Witness for C8: a concrete 404 against stored tokens — no bearer header,
console log, error rethrown, tokens intact. -/
theorem c8_witness :
    (downloadQuizPdf "t" "qd" (initCtx ⟨some "A1", some "R1"⟩
        [FetchOutcome.success 404 { detail := some "boom" }])).2.log.map
        (fun q => q.headers.authorization) = [none] ∧
    (downloadQuizPdf "t" "qd" (initCtx ⟨some "A1", some "R1"⟩
        [FetchOutcome.success 404 { detail := some "boom" }])).1 =
      OpResult.error "boom" ∧
    (downloadQuizPdf "t" "qd" (initCtx ⟨some "A1", some "R1"⟩
        [FetchOutcome.success 404 { detail := some "boom" }])).2.consoleErrors = 1 ∧
    (downloadQuizPdf "t" "qd" (initCtx ⟨some "A1", some "R1"⟩
        [FetchOutcome.success 404 { detail := some "boom" }])).2.store =
      ⟨some "A1", some "R1"⟩ := by
  obtain ⟨ha, hb, -⟩ :=
    c8_downloadQuizPdf_unauthenticated_logs_and_rethrows "t" "qd" ⟨some "A1", some "R1"⟩
  obtain ⟨h1, h2⟩ := hb 404 { detail := some "boom" } [] (by decide)
  exact ⟨(ha _).1, by rw [h1]; rfl, h2, (ha _).2.1⟩



/-- A first response that is neither 2xx nor 401 rejects at once with the
backend detail (or default message) and leaves storage untouched. -/
theorem protectedOp_nonOk_non401 (s : OpSpec) (fuel status : Nat) (st : Store)
    (b : Body) (rest : List FetchOutcome)
    (h401 : status ≠ 401) (hok : resOk status = false) :
    protectedOp s (fuel + 1)
        (initCtx st (FetchOutcome.success status b :: rest)) =
      (OpResult.error (jsOr b.detail (s.defaultMsg status)),
       ⟨st, rest, [mkRequest s st], [], none, 0⟩) := by
  simp only [initCtx]
  rw [step_err s fuel st status b rest [] [] none 0 h401 hok]
  simp

/-- A 401 first response followed by any failing refresh (falsy stored
refresh token, non-2xx refresh response, or transport error on the refresh
call) ends in the session-expired error with both tokens removed and a
redirect to /login. -/
theorem protectedOp_401_fail (s : OpSpec) (fuel : Nat) (st : Store) (b : Body)
    (rest : List FetchOutcome)
    (hfail : jsFalsy st.refresh_token = true ∨
      rest.head? = some FetchOutcome.netError ∨
      ∃ s2 b2 rest2, rest = FetchOutcome.success s2 b2 :: rest2 ∧
        resOk s2 = false) :
    (protectedOp s (fuel + 1)
        (initCtx st (FetchOutcome.success 401 b :: rest))).1 =
      OpResult.error sessionExpiredMsg ∧
    (protectedOp s (fuel + 1)
        (initCtx st (FetchOutcome.success 401 b :: rest))).2.store = ⟨none, none⟩ ∧
    (protectedOp s (fuel + 1)
        (initCtx st (FetchOutcome.success 401 b :: rest))).2.href = some "/login" ∧
    (protectedOp s (fuel + 1)
        (initCtx st (FetchOutcome.success 401 b :: rest))).2.storeLog =
      [StorageEvent.removeItem accessKey, StorageEvent.removeItem refreshKey] := by
  simp only [initCtx]
  by_cases hf : jsFalsy st.refresh_token = true
  · rw [step_401_norefresh s fuel st b rest [] [] none 0 hf]
    exact ⟨rfl, rfl, rfl, rfl⟩
  · rcases hrt : st.refresh_token with _ | r
    · rw [hrt] at hf; exact absurd (by decide) hf
    have hre : r ≠ "" := by
      intro h; subst h; rw [hrt] at hf; exact absurd (by decide) hf
    rcases hfail with h1 | h2 | h3
    · exact absurd h1 hf
    · rcases rest with _ | ⟨o2, rest2⟩
      · simp at h2
      rcases o2 with ⟨s2, b2⟩ | _
      · simp at h2
      rw [step_401_refresh_net_fail s fuel st b r rest2 [] [] none 0 hrt hre]
      exact ⟨rfl, rfl, rfl, rfl⟩
    · obtain ⟨s2, b2, rest2, rfl, hok2⟩ := h3
      rw [step_401_refresh_http_fail s fuel st b r s2 b2 rest2 [] [] none 0 hrt hre hok2]
      exact ⟨rfl, rfl, rfl, rfl⟩

/-- The happy refresh-and-retry run: 401, successful refresh handing out a
new access token, and the retried request answered 2xx — the operation
resolves with the final body, the access slot is written exactly once (to
the refreshed value), the refresh slot is untouched, and the retried request
is built from the refreshed storage. -/
theorem protectedOp_refresh_retry (s : OpSpec) (fuel : Nat) (st : Store)
    (r a' : String) (b1 d : Body)
    (hrt : st.refresh_token = some r) (hre : r ≠ "") :
    protectedOp s (fuel + 2)
        (initCtx st [FetchOutcome.success 401 b1,
          FetchOutcome.success 200 { access_token := some a' },
          FetchOutcome.success 200 d]) =
      (OpResult.ok d,
       ⟨⟨some a', some r⟩, [],
        [mkRequest s st, refreshRequest r, mkRequest s ⟨some a', some r⟩],
        [StorageEvent.setItem accessKey a'], none, 0⟩) := by
  simp only [initCtx]
  rw [show fuel + 2 = (fuel + 1) + 1 from rfl,
    step_401_refresh_ok s (fuel + 1) st b1 r 200 { access_token := some a' }
      [FetchOutcome.success 200 d] [] [] none 0 hrt hre (by decide)]
  simp only [jsStr, List.nil_append]
  rw [step_ok s fuel ⟨some a', some r⟩ 200 d [] [mkRequest s st, refreshRequest r]
    [StorageEvent.setItem accessKey a'] none 0 (by decide)]
  simp

/-- The first request of a protected run carries the Authorization value
computed from the access token stored at call time. -/
theorem protectedOp_first_auth (s : OpSpec)
    (hauth : ∀ st, (s.mkHeaders st).authorization = bearerOf st.access_token)
    (fuel : Nat) (st : Store) (script : List FetchOutcome) :
    ((protectedOp s (fuel + 1) (initCtx st script)).2.log.head?).map
        (fun q => q.headers.authorization) = some (bearerOf st.access_token) := by
  obtain ⟨l, hl⟩ := protectedOp_first_req s fuel (initCtx st script)
  simp only [initCtx] at hl ⊢
  rw [hl]
  simp [mkRequest, hauth]



/-- C2: for every protected operation, a 401 first response followed by a
failing refresh (no stored refresh token, a non-2xx refresh response, or a
transport error on the refresh call) rejects with the session-expired error,
removes both stored tokens, and redirects to /login. -/
theorem c2_failed_refresh_clears_and_expires
    (text yurl file summary : String) (op : Nat → Ctx → OpResult × Ctx)
    (hop : op ∈ [getUserProfile, summarizeText text, summarizeYouTube yurl,
      summarizePDF file, generateQuiz summary, getUserSummaries, getUserQuizzes])
    (fuel : Nat) (st : Store) (b : Body) (rest : List FetchOutcome)
    (hfail : jsFalsy st.refresh_token = true ∨
      rest.head? = some FetchOutcome.netError ∨
      ∃ s2 b2 rest2, rest = FetchOutcome.success s2 b2 :: rest2 ∧
        resOk s2 = false) :
    (op (fuel + 1) (initCtx st (FetchOutcome.success 401 b :: rest))).1 =
      OpResult.error sessionExpiredMsg ∧
    (op (fuel + 1) (initCtx st (FetchOutcome.success 401 b :: rest))).2.store =
      ⟨none, none⟩ ∧
    (op (fuel + 1) (initCtx st (FetchOutcome.success 401 b :: rest))).2.href =
      some "/login" ∧
    (op (fuel + 1) (initCtx st (FetchOutcome.success 401 b :: rest))).2.storeLog =
      [StorageEvent.removeItem accessKey, StorageEvent.removeItem refreshKey] := by
  simp only [List.mem_cons, List.not_mem_nil, or_false] at hop
  rcases hop with rfl | rfl | rfl | rfl | rfl | rfl | rfl <;>
    exact protectedOp_401_fail _ fuel st b rest hfail

/-- Witness for C2: a concrete 401 followed by a 400 refresh response. -/
theorem c2_witness :
    (getUserProfile 1 (initCtx ⟨some "A1", some "R1"⟩
        [FetchOutcome.success 401 {}, FetchOutcome.success 400 {}])).1 =
      OpResult.error sessionExpiredMsg ∧
    (getUserProfile 1 (initCtx ⟨some "A1", some "R1"⟩
        [FetchOutcome.success 401 {}, FetchOutcome.success 400 {}])).2.store =
      ⟨none, none⟩ ∧
    (getUserProfile 1 (initCtx ⟨some "A1", some "R1"⟩
        [FetchOutcome.success 401 {}, FetchOutcome.success 400 {}])).2.href =
      some "/login" := by
  obtain ⟨h1, h2, h3, -⟩ := c2_failed_refresh_clears_and_expires
    "" "" "" "" getUserProfile (List.mem_cons_self _ _) 0 ⟨some "A1", some "R1"⟩ {}
    [FetchOutcome.success 400 {}]
    (Or.inr (Or.inr ⟨400, {}, [], rfl, by decide⟩))
  exact ⟨h1, h2, h3⟩



/-- C3: for every protected operation, given a truthy stored refresh token, a
401 first response, a successful refresh carrying a new (non-empty) access
token, and a 2xx retried request, the operation resolves with the final
parsed body; the access slot is written exactly once, to the refreshed
value; the refresh slot is unchanged; exactly three requests go out (the
original, one refresh, and the retry to the same endpoint); and the retried
request carries the refreshed bearer token while the original carried the
token stored at call time. -/
theorem c3_refresh_retry_resolves
    (text yurl file summary : String) (op : Nat → Ctx → OpResult × Ctx)
    (hop : op ∈ [getUserProfile, summarizeText text, summarizeYouTube yurl,
      summarizePDF file, generateQuiz summary, getUserSummaries, getUserQuizzes])
    (fuel : Nat) (st : Store) (r a' : String) (b1 d : Body)
    (hrt : st.refresh_token = some r) (hre : r ≠ "") (ha : a' ≠ "") :
    (op (fuel + 2) (initCtx st [FetchOutcome.success 401 b1,
        FetchOutcome.success 200 { access_token := some a' },
        FetchOutcome.success 200 d])).1 = OpResult.ok d ∧
    (op (fuel + 2) (initCtx st [FetchOutcome.success 401 b1,
        FetchOutcome.success 200 { access_token := some a' },
        FetchOutcome.success 200 d])).2.store = ⟨some a', some r⟩ ∧
    (op (fuel + 2) (initCtx st [FetchOutcome.success 401 b1,
        FetchOutcome.success 200 { access_token := some a' },
        FetchOutcome.success 200 d])).2.storeLog =
      [StorageEvent.setItem accessKey a'] ∧
    (op (fuel + 2) (initCtx st [FetchOutcome.success 401 b1,
        FetchOutcome.success 200 { access_token := some a' },
        FetchOutcome.success 200 d])).2.log.map
        (fun q => q.headers.authorization) =
      [bearerOf st.access_token, none, some ("Bearer " ++ a')] ∧
    countRefreshRequests (op (fuel + 2) (initCtx st [FetchOutcome.success 401 b1,
        FetchOutcome.success 200 { access_token := some a' },
        FetchOutcome.success 200 d])).2.log = 1 ∧
    ((op (fuel + 2) (initCtx st [FetchOutcome.success 401 b1,
        FetchOutcome.success 200 { access_token := some a' },
        FetchOutcome.success 200 d])).2.log.map (fun q => q.url)).get? 0 =
      ((op (fuel + 2) (initCtx st [FetchOutcome.success 401 b1,
        FetchOutcome.success 200 { access_token := some a' },
        FetchOutcome.success 200 d])).2.log.map (fun q => q.url)).get? 2 := by
  simp only [List.mem_cons, List.not_mem_nil, or_false] at hop
  rcases hop with rfl | rfl | rfl | rfl | rfl | rfl | rfl <;>
    (simp only [getUserProfile, summarizeText, summarizeYouTube, summarizePDF,
       generateQuiz, getUserSummaries, getUserQuizzes]
     rw [protectedOp_refresh_retry _ fuel st r a' b1 d hrt hre]
     refine ⟨rfl, rfl, rfl, ?_, ?_, ?_⟩ <;>
       simp [mkRequest, getUserProfileSpec, summarizeTextSpec, summarizeYouTubeSpec,
         summarizePDFSpec, generateQuizSpec, getUserSummariesSpec, getUserQuizzesSpec,
         getAuthHeaders, refreshRequest, jsonHeaders, bearerOf, jsFalsy, jsStr, ha,
         countRefreshRequests, API_BASE])

/-- Witness for C3 at concrete tokens and bodies. -/
theorem c3_witness :
    (getUserProfile 2 (initCtx ⟨some "A1", some "R1"⟩
        [FetchOutcome.success 401 {},
         FetchOutcome.success 200 { access_token := some "A2" },
         FetchOutcome.success 200 { payload := "profile" }])).1 =
      OpResult.ok { payload := "profile" } ∧
    (getUserProfile 2 (initCtx ⟨some "A1", some "R1"⟩
        [FetchOutcome.success 401 {},
         FetchOutcome.success 200 { access_token := some "A2" },
         FetchOutcome.success 200 { payload := "profile" }])).2.store =
      ⟨some "A2", some "R1"⟩ ∧
    (getUserProfile 2 (initCtx ⟨some "A1", some "R1"⟩
        [FetchOutcome.success 401 {},
         FetchOutcome.success 200 { access_token := some "A2" },
         FetchOutcome.success 200 { payload := "profile" }])).2.storeLog =
      [StorageEvent.setItem accessKey "A2"] ∧
    (getUserProfile 2 (initCtx ⟨some "A1", some "R1"⟩
        [FetchOutcome.success 401 {},
         FetchOutcome.success 200 { access_token := some "A2" },
         FetchOutcome.success 200 { payload := "profile" }])).2.log.map
        (fun q => q.headers.authorization) =
      [some "Bearer A1", none, some "Bearer A2"] := by
  obtain ⟨h1, h2, h3, h4, -, -⟩ := c3_refresh_retry_resolves
    "" "" "" "" getUserProfile (List.mem_cons_self _ _) 0 ⟨some "A1", some "R1"⟩
    "R1" "A2" {} { payload := "profile" } rfl (by decide) (by decide)
  exact ⟨h1, h2, h3, by rw [h4]; rfl⟩



/-- C5 (amended): for every protected operation, the first outgoing request
carries the Authorization value computed by JS truthiness from the access
token stored at call time: no header when no token is stored, `Bearer <t>`
when a non-empty token `t` is stored, and — deviating from the claim as
written — no header when the stored token is the empty string. -/
theorem c5_first_request_bearer
    (text yurl file summary : String) (op : Nat → Ctx → OpResult × Ctx)
    (hop : op ∈ [getUserProfile, summarizeText text, summarizeYouTube yurl,
      summarizePDF file, generateQuiz summary, getUserSummaries, getUserQuizzes])
    (fuel : Nat) (st : Store) (script : List FetchOutcome) :
    ((op (fuel + 1) (initCtx st script)).2.log.head?).map
        (fun q => q.headers.authorization) = some (bearerOf st.access_token) ∧
    (st.access_token = none → bearerOf st.access_token = none) ∧
    (∀ t, st.access_token = some t → t ≠ "" →
      bearerOf st.access_token = some ("Bearer " ++ t)) ∧
    (st.access_token = some "" → bearerOf st.access_token = none) := by
  simp only [List.mem_cons, List.not_mem_nil, or_false] at hop
  have hb : (st.access_token = none → bearerOf st.access_token = none) ∧
      (∀ t, st.access_token = some t → t ≠ "" →
        bearerOf st.access_token = some ("Bearer " ++ t)) ∧
      (st.access_token = some "" → bearerOf st.access_token = none) := by
    refine ⟨fun h => by simp [bearerOf, jsFalsy, h],
      fun t ht hne => by simp [bearerOf, jsFalsy, ht, hne, jsStr],
      fun h => by simp [bearerOf, jsFalsy, h]⟩
  rcases hop with rfl | rfl | rfl | rfl | rfl | rfl | rfl <;>
    exact ⟨protectedOp_first_auth _ (fun _ => rfl) fuel st script, hb⟩

/-- Counterexample to C5 as stated: with the empty string stored as access
token (a stored token), the outgoing request carries no Authorization header
rather than `Bearer <accessToken>`. -/
theorem c5_counterexample :
    (initCtx ⟨some "", some "R1"⟩ [FetchOutcome.success 200 {}]).store.access_token =
      some "" ∧
    (getUserProfile 1 (initCtx ⟨some "", some "R1"⟩
        [FetchOutcome.success 200 {}])).2.log.map
        (fun q => q.headers.authorization) = [none] := by
  exact ⟨rfl, by decide⟩

/-- Witness for C5 at a concrete stored token. -/
theorem c5_witness :
    ((getUserProfile 1 (initCtx ⟨some "A1", some "R1"⟩
        [FetchOutcome.success 200 {}])).2.log.head?).map
        (fun q => q.headers.authorization) = some (some "Bearer A1") := by
  have h := (c5_first_request_bearer "" "" "" "" getUserProfile
    (List.mem_cons_self _ _) 0 ⟨some "A1", some "R1"⟩
    [FetchOutcome.success 200 {}]).1
  rw [h]; rfl

/-- C10: for every protected operation, a 401 first response never surfaces
the backend-supplied error body: the run is literally insensitive to that
response's body, and it either throws the session-expired error or proceeds
as the retried operation after a successful refresh — the ordinary
non-2xx error branch is unreachable on a 401. -/
theorem c10_401_before_generic_error
    (text yurl file summary : String) (op : Nat → Ctx → OpResult × Ctx)
    (hop : op ∈ [getUserProfile, summarizeText text, summarizeYouTube yurl,
      summarizePDF file, generateQuiz summary, getUserSummaries, getUserQuizzes])
    (fuel : Nat) (st : Store) (b b' : Body) (rest : List FetchOutcome) :
    op (fuel + 1) (initCtx st (FetchOutcome.success 401 b :: rest)) =
      op (fuel + 1) (initCtx st (FetchOutcome.success 401 b' :: rest)) ∧
    ((op (fuel + 1) (initCtx st (FetchOutcome.success 401 b :: rest))).1 =
        OpResult.error sessionExpiredMsg ∨
      ∃ ctx', op (fuel + 1) (initCtx st (FetchOutcome.success 401 b :: rest)) =
        op fuel ctx') := by
  simp only [List.mem_cons, List.not_mem_nil, or_false] at hop
  rcases hop with rfl | rfl | rfl | rfl | rfl | rfl | rfl <;>
    (simp only [getUserProfile, summarizeText, summarizeYouTube, summarizePDF,
       generateQuiz, getUserSummaries, getUserQuizzes, initCtx]
     exact protectedOp_401 _ fuel st b b' rest [] [] none 0)

/-- Witness for C10: a 401 with a backend error document versus an empty
body; with no refresh token the run ends in the session-expired error, not
in the document's detail. -/
theorem c10_witness :
    getUserProfile 1 (initCtx ⟨some "A1", none⟩
        [FetchOutcome.success 401 { detail := some "token invalid" }]) =
      getUserProfile 1 (initCtx ⟨some "A1", none⟩ [FetchOutcome.success 401 {}]) ∧
    ((getUserProfile 1 (initCtx ⟨some "A1", none⟩
        [FetchOutcome.success 401 { detail := some "token invalid" }])).1 =
        OpResult.error sessionExpiredMsg ∨
      ∃ ctx', getUserProfile 1 (initCtx ⟨some "A1", none⟩
          [FetchOutcome.success 401 { detail := some "token invalid" }]) =
        getUserProfile 0 ctx') :=
  c10_401_before_generic_error "" "" "" "" getUserProfile
    (List.mem_cons_self _ _) 0 ⟨some "A1", none⟩
    { detail := some "token invalid" } {} []



/-- Counterexample to C1 as stated: after a successful refresh the retried
request returns 401 again, and the code performs a SECOND refresh attempt
(two requests reach the refresh endpoint) and then resolves — it does not
fail without a second refresh attempt. -/
theorem c1_counterexample :
    countRefreshRequests (getUserProfile 3 (initCtx ⟨some "A1", some "R1"⟩
        [FetchOutcome.success 401 {},
         FetchOutcome.success 200 { access_token := some "A2" },
         FetchOutcome.success 401 {},
         FetchOutcome.success 200 { access_token := some "A3" },
         FetchOutcome.success 200 { payload := "profile" }])).2.log = 2 ∧
    (getUserProfile 3 (initCtx ⟨some "A1", some "R1"⟩
        [FetchOutcome.success 401 {},
         FetchOutcome.success 200 { access_token := some "A2" },
         FetchOutcome.success 401 {},
         FetchOutcome.success 200 { access_token := some "A3" },
         FetchOutcome.success 200 { payload := "profile" }])).1 =
      OpResult.ok { payload := "profile" } := by
  exact ⟨by decide, by decide⟩

/-- C1 (amended): recovery is re-attempted on every 401, with no per-call
budget: for every protected operation and every `n`, a script of `n`
consecutive (401, successful-refresh) rounds followed by a 2xx response
resolves successfully after issuing exactly `n` refresh requests; the run
fails only when a refresh attempt itself fails. -/
theorem c1_retry_is_unbounded
    (text yurl file summary : String) (op : Nat → Ctx → OpResult × Ctx)
    (hop : op ∈ [getUserProfile, summarizeText text, summarizeYouTube yurl,
      summarizePDF file, generateQuiz summary, getUserSummaries, getUserQuizzes])
    (n : Nat) (d : Body) :
    (op (n + 1) (initCtx ⟨some "A0", some "R0"⟩
        (loop401 n ++ [FetchOutcome.success 200 d]))).1 = OpResult.ok d ∧
    countRefreshRequests (op (n + 1) (initCtx ⟨some "A0", some "R0"⟩
        (loop401 n ++ [FetchOutcome.success 200 d]))).2.log = n := by
  simp only [List.mem_cons, List.not_mem_nil, or_false] at hop
  rcases hop with rfl | rfl | rfl | rfl | rfl | rfl | rfl
  · simp only [getUserProfile, initCtx]
    obtain ⟨h1, h2⟩ := protectedOp_loop getUserProfileSpec (by decide) n
      ⟨some "A0", some "R0"⟩ "R0" d [] [] none 0 rfl (by decide)
    exact ⟨h1, by simpa [countRefreshRequests] using h2⟩
  · simp only [summarizeText, initCtx]
    obtain ⟨h1, h2⟩ := protectedOp_loop (summarizeTextSpec text) (by simp [summarizeTextSpec, API_BASE]) n
      ⟨some "A0", some "R0"⟩ "R0" d [] [] none 0 rfl (by decide)
    exact ⟨h1, by simpa [countRefreshRequests] using h2⟩
  · simp only [summarizeYouTube, initCtx]
    obtain ⟨h1, h2⟩ := protectedOp_loop (summarizeYouTubeSpec yurl) (by simp [summarizeYouTubeSpec, API_BASE]) n
      ⟨some "A0", some "R0"⟩ "R0" d [] [] none 0 rfl (by decide)
    exact ⟨h1, by simpa [countRefreshRequests] using h2⟩
  · simp only [summarizePDF, initCtx]
    obtain ⟨h1, h2⟩ := protectedOp_loop (summarizePDFSpec file) (by simp [summarizePDFSpec, API_BASE]) n
      ⟨some "A0", some "R0"⟩ "R0" d [] [] none 0 rfl (by decide)
    exact ⟨h1, by simpa [countRefreshRequests] using h2⟩
  · simp only [generateQuiz, initCtx]
    obtain ⟨h1, h2⟩ := protectedOp_loop (generateQuizSpec summary) (by simp [generateQuizSpec, API_BASE]) n
      ⟨some "A0", some "R0"⟩ "R0" d [] [] none 0 rfl (by decide)
    exact ⟨h1, by simpa [countRefreshRequests] using h2⟩
  · simp only [getUserSummaries, initCtx]
    obtain ⟨h1, h2⟩ := protectedOp_loop getUserSummariesSpec (by decide) n
      ⟨some "A0", some "R0"⟩ "R0" d [] [] none 0 rfl (by decide)
    exact ⟨h1, by simpa [countRefreshRequests] using h2⟩
  · simp only [getUserQuizzes, initCtx]
    obtain ⟨h1, h2⟩ := protectedOp_loop getUserQuizzesSpec (by decide) n
      ⟨some "A0", some "R0"⟩ "R0" d [] [] none 0 rfl (by decide)
    exact ⟨h1, by simpa [countRefreshRequests] using h2⟩

/-- Witness for C1 (amended) at `n = 2`. -/
theorem c1_witness :
    (getUserProfile 3 (initCtx ⟨some "A0", some "R0"⟩
        (loop401 2 ++ [FetchOutcome.success 200 { payload := "p" }]))).1 =
      OpResult.ok { payload := "p" } ∧
    countRefreshRequests (getUserProfile 3 (initCtx ⟨some "A0", some "R0"⟩
        (loop401 2 ++ [FetchOutcome.success 200 { payload := "p" }]))).2.log = 2 :=
  c1_retry_is_unbounded "" "" "" "" getUserProfile (List.mem_cons_self _ _) 2
    { payload := "p" }



/-- C9: (i) every protected operation, on a first response that is neither
2xx nor 401, rejects while leaving storage untouched; (ii) a failed
`refreshAccessToken` leaves storage untouched (it only returns false), and
even a successful one never removes a token; (iii) across any protected run,
a token slot is emptied only on the session-expired (failed-refresh) path,
and apart from that path the storage log contains only access-token setItem
entries; (iv) `verifyOTP` rejects without storage writes on non-2xx and
never empties a slot; (v) `registerUser`, `sendOTP` and `downloadQuizPdf`
never touch storage at all. -/
theorem c9_storage_frame_effects :
    (∀ (text yurl file summary : String) (op : Nat → Ctx → OpResult × Ctx),
      op ∈ [getUserProfile, summarizeText text, summarizeYouTube yurl,
        summarizePDF file, generateQuiz summary, getUserSummaries, getUserQuizzes] →
      ∀ (fuel status : Nat) (st : Store) (b : Body) (rest : List FetchOutcome),
        status ≠ 401 → resOk status = false →
        (∃ msg, (op (fuel + 1)
            (initCtx st (FetchOutcome.success status b :: rest))).1 =
          OpResult.error msg) ∧
        (op (fuel + 1)
            (initCtx st (FetchOutcome.success status b :: rest))).2.store = st ∧
        (op (fuel + 1)
            (initCtx st (FetchOutcome.success status b :: rest))).2.storeLog = []) ∧
    (∀ ctx : Ctx, ((refreshAccessToken ctx).1 = false →
        (refreshAccessToken ctx).2.store = ctx.store ∧
        (refreshAccessToken ctx).2.storeLog = ctx.storeLog) ∧
      (refreshAccessToken ctx).2.store.refresh_token = ctx.store.refresh_token ∧
      ((refreshAccessToken ctx).2.store.access_token = none →
        ctx.store.access_token = none)) ∧
    (∀ (text yurl file summary : String) (op : Nat → Ctx → OpResult × Ctx),
      op ∈ [getUserProfile, summarizeText text, summarizeYouTube yurl,
        summarizePDF file, generateQuiz summary, getUserSummaries, getUserQuizzes] →
      ∀ (fuel : Nat) (st : Store) (script : List FetchOutcome),
        ((op fuel (initCtx st script)).2.store.access_token = none →
          st.access_token = none ∨
          (op fuel (initCtx st script)).1 = OpResult.error sessionExpiredMsg) ∧
        ((op fuel (initCtx st script)).2.store.refresh_token = none →
          st.refresh_token = none ∨
          (op fuel (initCtx st script)).1 = OpResult.error sessionExpiredMsg) ∧
        ((op fuel (initCtx st script)).1 ≠ OpResult.error sessionExpiredMsg →
          ∀ e ∈ (op fuel (initCtx st script)).2.storeLog,
            ∃ v, e = StorageEvent.setItem accessKey v)) ∧
    (∀ (email otp : String) (st : Store) (status : Nat) (b : Body)
        (rest : List FetchOutcome), resOk status = false →
      (verifyOTP email otp
          (initCtx st (FetchOutcome.success status b :: rest))).2.store = st ∧
      (verifyOTP email otp
          (initCtx st (FetchOutcome.success status b :: rest))).2.storeLog = [] ∧
      ∃ msg, (verifyOTP email otp
          (initCtx st (FetchOutcome.success status b :: rest))).1 =
        OpResult.error msg) ∧
    (∀ (email otp : String) (ctx : Ctx),
      ((verifyOTP email otp ctx).2.store.access_token = none →
        ctx.store.access_token = none) ∧
      ((verifyOTP email otp ctx).2.store.refresh_token = none →
        ctx.store.refresh_token = none)) ∧
    (∀ (email : String) (phone : Option String) (fullName : String) (ctx : Ctx),
      (registerUser email phone fullName ctx).2.store = ctx.store ∧
      (registerUser email phone fullName ctx).2.storeLog = ctx.storeLog) ∧
    (∀ (phone email : String) (ctx : Ctx),
      (sendOTP phone email ctx).2.store = ctx.store ∧
      (sendOTP phone email ctx).2.storeLog = ctx.storeLog) ∧
    (∀ (title quizData : String) (ctx : Ctx),
      (downloadQuizPdf title quizData ctx).2.store = ctx.store ∧
      (downloadQuizPdf title quizData ctx).2.storeLog = ctx.storeLog) := by
  refine ⟨?_, ?_, ?_, ?_, verifyOTP_never_clears, registerUser_store,
    sendOTP_store, downloadQuizPdf_store⟩
  · intro text yurl file summary op hop fuel status st b rest h401 hok
    simp only [List.mem_cons, List.not_mem_nil, or_false] at hop
    rcases hop with rfl | rfl | rfl | rfl | rfl | rfl | rfl <;>
      (simp only [getUserProfile, summarizeText, summarizeYouTube, summarizePDF,
         generateQuiz, getUserSummaries, getUserQuizzes]
       rw [protectedOp_nonOk_non401 _ fuel status st b rest h401 hok]
       exact ⟨⟨_, rfl⟩, rfl, rfl⟩)
  · exact refreshAccessToken_frame
  · intro text yurl file summary op hop fuel st script
    simp only [List.mem_cons, List.not_mem_nil, or_false] at hop
    rcases hop with rfl | rfl | rfl | rfl | rfl | rfl | rfl <;>
      (obtain ⟨-, ⟨l, hl, hle⟩, hacc, hrefr⟩ := protectedOp_frame _ fuel (initCtx st script)
       refine ⟨hacc, hrefr, ?_⟩
       intro hne e he
       simp only [getUserProfile, summarizeText, summarizeYouTube, summarizePDF,
         generateQuiz, getUserSummaries, getUserQuizzes] at he
       rw [hl] at he
       exact hle hne e (by simpa [initCtx] using he))
  · intro email otp st status b rest hok
    have h := verifyOTP_nonOk_eq email otp st status b rest hok
    exact ⟨by rw [h], by rw [h], ⟨_, by rw [h]⟩⟩


/-- Witness for C9: a concrete 500 response against stored tokens — the
operation rejects and storage is untouched. -/
theorem c9_witness :
    (∃ msg, (getUserProfile 1 (initCtx ⟨some "A1", some "R1"⟩
        [FetchOutcome.success 500 { detail := some "boom" }])).1 =
      OpResult.error msg) ∧
    (getUserProfile 1 (initCtx ⟨some "A1", some "R1"⟩
        [FetchOutcome.success 500 { detail := some "boom" }])).2.store =
      ⟨some "A1", some "R1"⟩ ∧
    (getUserProfile 1 (initCtx ⟨some "A1", some "R1"⟩
        [FetchOutcome.success 500 { detail := some "boom" }])).2.storeLog = [] :=
  c9_storage_frame_effects.1 "" "" "" "" getUserProfile (List.mem_cons_self _ _)
    0 500 ⟨some "A1", some "R1"⟩ { detail := some "boom" } [] (by decide) (by decide)

end Api
